import Mathlib

/-!
Verification of the Suno playback bot (src/bot.py).

The file gives a shallow embedding of the program's two cores:

* `SunoClient` — the generation-polling pipeline (`_poll_generation`,
  `get_audio_url`, `download_audio`).  Network responses are modelled as
  explicit inputs (a function from attempt index to response, or a response
  record), and the fallible Python methods become total Lean functions
  returning an explicit outcome that records both the raised-or-returned
  result and the observable side effects (number of polls, sleep time, the
  temporary file left on disk).

* `MusicPlayer` — the per-guild playback session machinery
  (`voice_clients` / `queues` / `current_songs` dictionaries, `get_queue`,
  `add_to_queue`, `leave_voice_channel`, `play`, `_song_finished`).  The
  three dictionaries become maps `Nat → Option _`; the voice client is a
  record of its `connected` / `playing` flags; the filesystem is a list of
  existing file paths (plus a list of paths whose deletion raises, to model
  `os.remove` failures caught by the `try/except` in `_song_finished`).
  Instrumentation fields (`disconnectCount`, `startedOrder`,
  `finishedCount`) record the observable transport calls.
-/

/-! ## SunoClient: polling model (`_poll_generation`) -/

/-- One HTTP response to a status poll: the HTTP status code, the decoded
JSON fields `status` and `error` (absent fields are `none`), and the raw
body text used in error messages. -/
structure PollResponse where
  httpStatus : Nat
  status : Option String
  error : Option String
  text : String
deriving Repr, DecidableEq

/-- Outcome of `_poll_generation`: either the completed record is returned,
or one of the three exceptions is raised. -/
inductive PollOutcome where
  | completed (rec : PollResponse)
  | generationFailed (reason : Option String)
  | httpFailure (text : String)
  | timedOut
deriving Repr, DecidableEq

/-- Observable trace of one `_poll_generation` run: the outcome, how many
GET polls were issued, and the total `asyncio.sleep` time in time units. -/
structure PollRun where
  outcome : PollOutcome
  pollCount : Nat
  sleepTime : Nat
deriving Repr, DecidableEq

/-- `True` when a poll response makes the loop continue: HTTP 200 and a
business `status` that is neither `completed` nor `failed`. -/
def PendingResp (r : PollResponse) : Prop :=
  r.httpStatus = 200 ∧ r.status ≠ some "completed" ∧ r.status ≠ some "failed"

instance (r : PollResponse) : Decidable (PendingResp r) := by
  unfold PendingResp; infer_instance

/-- Whether an HTTP status code is in the 2xx success range. -/
def is2xx (c : Nat) : Bool :=
  decide (200 ≤ c) && decide (c < 300)

/-- The loop body of `_poll_generation`: `polls i` is the response to the
`i`-th GET (0-based), `fuel` the remaining attempts, `count` the polls
issued so far, `slept` the time slept so far.  Mirrors the Python loop:
non-200 raises, `completed` returns, `failed` raises, otherwise sleep 5
and retry; exhausting the attempts raises the timeout. -/
def pollLoop (polls : Nat → PollResponse) : Nat → Nat → Nat → PollRun
  | 0, count, slept => ⟨.timedOut, count, slept⟩
  | fuel + 1, count, slept =>
    let r := polls count
    if r.httpStatus ≠ 200 then ⟨.httpFailure r.text, count + 1, slept⟩
    else if r.status = some "completed" then ⟨.completed r, count + 1, slept⟩
    else if r.status = some "failed" then ⟨.generationFailed r.error, count + 1, slept⟩
    else pollLoop polls fuel (count + 1) (slept + 5)

/-- `max_attempts = 60` in `_poll_generation`. -/
def max_attempts : Nat := 60

/-- `SunoClient._poll_generation`, as a function of the sequence of poll
responses. -/
def poll_generation (polls : Nat → PollResponse) : PollRun :=
  pollLoop polls max_attempts 0 0

/-! ## SunoClient: audio URL resolution (`get_audio_url`) -/

/-- Response to the `/audio` GET: HTTP status, the decoded `url` field
(`none` when the field is absent), and the raw body text. -/
structure AudioResponse where
  httpStatus : Nat
  url : Option String
  text : String
deriving Repr, DecidableEq

/-- Outcome of `get_audio_url`: either an exception with the body text, or
a normal return carrying `data.get("url")` — which is absent (`none`) when
the response has no `url` field. -/
inductive AudioUrlResult where
  | failure (msg : String)
  | success (url : Option String)
deriving Repr, DecidableEq

/-- `SunoClient.get_audio_url`: raise on any non-200 status, otherwise
return `data.get("url")` as-is. -/
def get_audio_url (r : AudioResponse) : AudioUrlResult :=
  if r.httpStatus ≠ 200 then .failure r.text else .success r.url

/-! ## SunoClient: download (`download_audio`) -/

/-- One event on the response body stream: a chunk of bytes delivered by
`response.content.read(1024)` (an empty chunk signals end of stream), or an
I/O error raised by the read/write. -/
inductive ChunkEvent where
  | chunk (bytes : List Nat)
  | ioError (msg : String)
deriving Repr, DecidableEq

/-- The download response: HTTP status, raw body text (for the error
message), and the stream of chunk events. -/
structure DownloadResponse where
  httpStatus : Nat
  text : String
  events : List ChunkEvent
deriving Repr, DecidableEq

/-- Outcome of `download_audio`: the returned-or-raised result (`.ok` is
the content of the returned file) together with the temporary file left on
disk afterwards (`none` = no file was created, `some c` = a file with
content `c` exists). -/
structure DownloadOutcome where
  result : Except String (List Nat)
  fileOnDisk : Option (List Nat)
deriving Repr

/-- The fixed read size used by `download_audio`. -/
def chunk_read_size : Nat := 1024

/-- The write loop of `download_audio`: the temp file already exists with
content `acc`.  End of stream or an empty chunk closes the file and returns
it; an I/O error propagates, leaving the partially written file on disk. -/
def writeChunks : List ChunkEvent → List Nat → DownloadOutcome
  | [], acc => ⟨.ok acc, some acc⟩
  | .chunk b :: rest, acc =>
    if b.isEmpty then ⟨.ok acc, some acc⟩ else writeChunks rest (acc ++ b)
  | .ioError m :: _, acc => ⟨.error m, some acc⟩

/-- `SunoClient.download_audio`: raise on non-200 before any file is
created; otherwise create the temp file (`tempfile.mkstemp`) and stream the
body into it in `chunk_read_size`-byte reads. -/
def download_audio (r : DownloadResponse) : DownloadOutcome :=
  if r.httpStatus ≠ 200 then ⟨.error r.text, none⟩ else writeChunks r.events []

/-! ## Polling lemmas -/

/-- Running the poll loop over a pending span advances `count` and `slept`
without changing the final result. -/
theorem pollLoop_pending_span (polls : Nat → PollResponse) (N : Nat) :
    ∀ fuel count slept : Nat, N ≤ fuel →
    (∀ i, i < N → PendingResp (polls (count + i))) →
    pollLoop polls fuel count slept
      = pollLoop polls (fuel - N) (count + N) (slept + 5 * N) := by
  induction N with
  | zero => intro fuel count slept _ _; simp
  | succ n ih =>
    intro fuel count slept hle hpend
    match fuel, hle with
    | fuel + 1, _ =>
      have h0 : PendingResp (polls count) := by
        simpa using hpend 0 (Nat.succ_pos n)
      obtain ⟨h200, hc, hf⟩ := h0
      have step : pollLoop polls (fuel + 1) count slept
          = pollLoop polls fuel (count + 1) (slept + 5) := by
        conv_lhs => unfold pollLoop
        simp [h200, hc, hf]
      rw [step]
      have hpend' : ∀ i, i < n → PendingResp (polls (count + 1 + i)) := by
        intro i hi
        have := hpend (i + 1) (by omega)
        have harg : count + (i + 1) = count + 1 + i := by omega
        rwa [harg] at this
      have := ih fuel (count + 1) (slept + 5) (by omega) hpend'
      rw [this]
      have e1 : fuel - n = fuel + 1 - (n + 1) := by omega
      have e2 : count + 1 + n = count + (n + 1) := by omega
      have e3 : slept + 5 + 5 * n = slept + 5 * (n + 1) := by ring
      rw [e1, e2, e3]

/-- Claim C2: if the status polls report pending for the first `N` polls
(`N < 60`) and completed on the next, `_poll_generation` returns the
completed record after exactly `N + 1` polls, having slept 5 time units
between consecutive polls (`5 * N` in total); if all 60 polls report
pending, it raises the generation timeout after exactly 60 polls. -/
theorem C2_poll_pending_then_completed_or_timeout
    (polls : Nat → PollResponse) (N : Nat) :
    (N < 60 → (∀ i, i < N → PendingResp (polls i)) →
      (polls N).httpStatus = 200 → (polls N).status = some "completed" →
      poll_generation polls = ⟨.completed (polls N), N + 1, 5 * N⟩) ∧
    ((∀ i, i < 60 → PendingResp (polls i)) →
      poll_generation polls = ⟨.timedOut, 60, 300⟩) := by
  constructor
  · intro hN hpend h200 hdone
    unfold poll_generation max_attempts
    rw [pollLoop_pending_span polls N 60 0 0 (by omega) (by simpa using hpend)]
    match hfuel : 60 - N with
    | 0 => omega
    | m + 1 =>
      unfold pollLoop
      simp [h200, hdone, Nat.zero_add]
  · intro hpend
    unfold poll_generation max_attempts
    rw [pollLoop_pending_span polls 60 60 0 0 (by omega) (by simpa using hpend)]
    unfold pollLoop
    simp

/-- Concrete polls: pending twice, then completed. -/
def pollsPendThenDone : Nat → PollResponse := fun i =>
  if i < 2 then ⟨200, some "pending", none, ""⟩
  else ⟨200, some "completed", none, "ok"⟩

/-- Concrete polls: pending forever. -/
def pollsAlwaysPend : Nat → PollResponse := fun _ =>
  ⟨200, some "pending", none, ""⟩

theorem C2_poll_witness :
    poll_generation pollsPendThenDone
      = ⟨.completed ⟨200, some "completed", none, "ok"⟩, 3, 10⟩ ∧
    poll_generation pollsAlwaysPend = ⟨.timedOut, 60, 300⟩ := by
  constructor
  · have h := (C2_poll_pending_then_completed_or_timeout pollsPendThenDone 2).1
      (by omega) (by decide) (by decide) (by decide)
    simpa [pollsPendThenDone] using h
  · exact (C2_poll_pending_then_completed_or_timeout pollsAlwaysPend 0).2
      (fun i _ => by
        show PendingResp ⟨200, some "pending", none, ""⟩
        decide)

/-- Claim C3: if the first `K` polls are pending and poll `K + 1` (0-based
index `K`, `K < 60`) reports `failed`, `_poll_generation` raises the
generation-failed error carrying the provider's `error` field after exactly
`K + 1` polls — no further polls; likewise a non-2xx HTTP response on that
poll raises immediately after exactly `K + 1` polls. -/
theorem C3_poll_failed_or_http_stops (polls : Nat → PollResponse) (K : Nat) :
    (K < 60 → (∀ i, i < K → PendingResp (polls i)) →
      (polls K).httpStatus = 200 → (polls K).status = some "failed" →
      poll_generation polls
        = ⟨.generationFailed (polls K).error, K + 1, 5 * K⟩) ∧
    (K < 60 → (∀ i, i < K → PendingResp (polls i)) →
      is2xx (polls K).httpStatus = false →
      poll_generation polls = ⟨.httpFailure (polls K).text, K + 1, 5 * K⟩) := by
  constructor
  · intro hK hpend h200 hfail
    unfold poll_generation max_attempts
    rw [pollLoop_pending_span polls K 60 0 0 (by omega) (by simpa using hpend)]
    match hfuel : 60 - K with
    | 0 => omega
    | m + 1 =>
      unfold pollLoop
      have hne : ¬ (polls (0 + K)).status = some "completed" := by
        simp only [Nat.zero_add, hfail]
        decide
      simp only [Nat.zero_add] at *
      simp [h200, hfail]
  · intro hK hpend hnot2xx
    have hne200 : (polls K).httpStatus ≠ 200 := by
      intro h
      rw [h] at hnot2xx
      simp [is2xx] at hnot2xx
    unfold poll_generation max_attempts
    rw [pollLoop_pending_span polls K 60 0 0 (by omega) (by simpa using hpend)]
    match hfuel : 60 - K with
    | 0 => omega
    | m + 1 =>
      unfold pollLoop
      simp only [Nat.zero_add]
      simp [hne200]

/-- Concrete polls: pending once, then a business failure. -/
def pollsThenFail : Nat → PollResponse := fun i =>
  if i = 0 then ⟨200, some "pending", none, ""⟩
  else ⟨200, some "failed", some "content policy", ""⟩

/-- Concrete polls: pending once, then HTTP 500. -/
def pollsThenHttp500 : Nat → PollResponse := fun i =>
  if i = 0 then ⟨200, some "pending", none, ""⟩
  else ⟨500, none, none, "internal error"⟩

theorem C3_poll_witness :
    poll_generation pollsThenFail
      = ⟨.generationFailed (some "content policy"), 2, 5⟩ ∧
    poll_generation pollsThenHttp500 = ⟨.httpFailure "internal error", 2, 5⟩ := by
  constructor
  · have h := (C3_poll_failed_or_http_stops pollsThenFail 1).1
      (by omega) (by decide) (by decide) (by decide)
    simpa [pollsThenFail] using h
  · have h := (C3_poll_failed_or_http_stops pollsThenHttp500 1).2
      (by omega) (by decide) (by decide)
    simpa [pollsThenHttp500] using h

/-! ## Audio URL theorems (claim C6) -/

/-- Claim C6 counterexample: on an HTTP 200 (hence 2xx) response whose body
has no `url` field, `get_audio_url` returns success carrying an absent URL
value instead of failing with a malformed-response error. -/
theorem C6_audio_url_counterexample :
    is2xx 200 = true ∧
    get_audio_url ⟨200, none, "no url field"⟩ = .success none := by
  constructor
  · decide
  · rfl

/-- Claim C6 as amended: `get_audio_url` fails with the body text on any
non-2xx (in fact any non-200) response; on a 200 response it returns the
`url` field's value as-is, with no check that the field is present — a
missing field yields a successful return of an absent value. -/
theorem C6_audio_url_amended (r : AudioResponse) :
    (is2xx r.httpStatus = false → get_audio_url r = .failure r.text) ∧
    (r.httpStatus = 200 → get_audio_url r = .success r.url) := by
  constructor
  · intro hnot
    have hne : r.httpStatus ≠ 200 := by
      intro h
      rw [h] at hnot
      simp [is2xx] at hnot
    unfold get_audio_url
    simp [hne]
  · intro h200
    unfold get_audio_url
    simp [h200]

theorem C6_audio_url_witness :
    get_audio_url ⟨404, none, "not found"⟩ = .failure "not found" ∧
    get_audio_url ⟨200, some "http://a/x.mp3", ""⟩
      = .success (some "http://a/x.mp3") := by
  constructor
  · exact (C6_audio_url_amended ⟨404, none, "not found"⟩).1 (by decide)
  · exact (C6_audio_url_amended ⟨200, some "http://a/x.mp3", ""⟩).2 rfl

/-! ## Download theorems (claim C7) -/

/-- Claim C7 counterexample: an I/O error after a partial download
propagates while the partially written temporary file is still on disk —
the partial file is not removed. -/
theorem C7_download_counterexample :
    download_audio ⟨200, "", [.chunk [1, 2, 3], .ioError "connection reset"]⟩
      = ⟨.error "connection reset", some [1, 2, 3]⟩ := by
  rfl

/-- After the 200 check, the write loop always leaves a file on disk: on
success the returned path holds exactly the streamed content, and on an
I/O error the partial file remains. -/
theorem writeChunks_leaves_file (evs : List ChunkEvent) :
    ∀ acc : List Nat, ∃ c,
      (writeChunks evs acc).fileOnDisk = some c ∧
      ((writeChunks evs acc).result = .ok c ∨
        ∃ m, (writeChunks evs acc).result = .error m) := by
  induction evs with
  | nil => intro acc; exact ⟨acc, rfl, Or.inl rfl⟩
  | cons e rest ih =>
    intro acc
    cases e with
    | chunk b =>
      by_cases hb : b.isEmpty
      · refine ⟨acc, ?_, Or.inl ?_⟩ <;> simp [writeChunks, hb]
      · have := ih (acc ++ b)
        simpa [writeChunks, hb] using this
    | ioError m =>
      exact ⟨acc, rfl, Or.inr ⟨m, rfl⟩⟩

/-- Claim C7 as amended: `download_audio` streams into a newly created
temporary file in fixed-size chunks; on a non-2xx response it fails before
any file is created; once the file is created it is left on disk in every
outcome — in particular, on an I/O failure after a partial download the
error propagates with the partial file still present (it is not removed). -/
theorem C7_download_amended (r : DownloadResponse) :
    (is2xx r.httpStatus = false → download_audio r = ⟨.error r.text, none⟩) ∧
    (r.httpStatus = 200 → ∃ c,
      (download_audio r).fileOnDisk = some c ∧
      ((download_audio r).result = .ok c ∨
        ∃ m, (download_audio r).result = .error m)) := by
  constructor
  · intro hnot
    have hne : r.httpStatus ≠ 200 := by
      intro h
      rw [h] at hnot
      simp [is2xx] at hnot
    unfold download_audio
    simp [hne]
  · intro h200
    unfold download_audio
    simp only [h200]
    simpa using writeChunks_leaves_file r.events []

theorem C7_download_witness :
    download_audio ⟨503, "busy", [.chunk [9]]⟩ = ⟨.error "busy", none⟩ ∧
    (∃ c, (download_audio ⟨200, "", [.chunk [7, 8]]⟩).fileOnDisk = some c ∧
      ((download_audio ⟨200, "", [.chunk [7, 8]]⟩).result = .ok c ∨
        ∃ m, (download_audio ⟨200, "", [.chunk [7, 8]]⟩).result = .error m)) := by
  constructor
  · exact (C7_download_amended ⟨503, "busy", [.chunk [9]]⟩).1 (by decide)
  · exact (C7_download_amended ⟨200, "", [.chunk [7, 8]]⟩).2 rfl

/-! ## MusicPlayer: state model -/

/-- A queued song record, as built by `generate_music` / `play_existing`:
`title`, `generation_id`, `file_path` of the downloaded temp file. -/
structure Song where
  title : String
  generation_id : String
  file_path : String
deriving Repr, DecidableEq

/-- The observable state of a `discord.VoiceClient`: whether it is
connected and whether it is currently playing. -/
structure VoiceClient where
  connected : Bool
  playing : Bool
deriving Repr, DecidableEq

/-- The `MusicPlayer` state together with its environment: the three
per-guild dictionaries, the filesystem (`files` = paths that exist,
`lockedFiles` = paths whose `os.remove` raises), and instrumentation of the
observable transport calls (`disconnectCount`, `startedOrder` = the
sequence of songs handed to `voice_client.play`, `finishedCount` = number
of finished-callbacks delivered). -/
structure PlayerState where
  voice_clients : Nat → Option VoiceClient
  queues : Nat → Option (List Song)
  current_songs : Nat → Option Song
  files : List String
  lockedFiles : List String
  disconnectCount : Nat
  startedOrder : List Song
  finishedCount : Nat

/-- Store a value under a key in a guild-indexed dictionary. -/
def setKey {α : Type} (g : Nat) (v : α) (m : Nat → Option α) : Nat → Option α :=
  fun k => if k = g then some v else m k

/-- Delete a key from a guild-indexed dictionary. -/
def delKey {α : Type} (g : Nat) (m : Nat → Option α) : Nat → Option α :=
  fun k => if k = g then none else m k

theorem setKey_self {α : Type} (g : Nat) (v : α) (m : Nat → Option α) :
    setKey g v m g = some v := by
  simp [setKey]

theorem setKey_ne {α : Type} (g k : Nat) (v : α) (m : Nat → Option α)
    (h : k ≠ g) : setKey g v m k = m k := by
  simp [setKey, h]

theorem delKey_self {α : Type} (g : Nat) (m : Nat → Option α) :
    delKey g m g = none := by
  simp [delKey]

theorem delKey_ne {α : Type} (g k : Nat) (m : Nat → Option α)
    (h : k ≠ g) : delKey g m k = m k := by
  simp [delKey, h]

/-- `MusicPlayer.get_queue`: a get-or-create lookup — when the guild has no
entry it first stores an empty list. Returns the queue and the (possibly
updated) state. -/
def get_queue (g : Nat) (s : PlayerState) : List Song × PlayerState :=
  match s.queues g with
  | some q => (q, s)
  | none => ([], { s with queues := setKey g [] s.queues })

/-- `MusicPlayer.add_to_queue`: `get_queue` then append to the tail. -/
def add_to_queue (g : Nat) (song : Song) (s : PlayerState) : PlayerState :=
  let p := get_queue g s
  { p.2 with queues := setKey g (p.1 ++ [song]) p.2.queues }

/-- `os.remove` under the `try/except` of `_song_finished`: removing a
locked path raises (the exception is caught and logged by the caller),
otherwise the path is erased from the filesystem. -/
def removeFile (path : String) (s : PlayerState) : PlayerState :=
  if path ∈ s.lockedFiles then s
  else { s with files := s.files.erase path }

/-- First stage of `leave_voice_channel`: if the guild has a voice client,
disconnect it when connected and delete the dictionary entry. -/
def dropVoiceClient (g : Nat) (s : PlayerState) : PlayerState :=
  match s.voice_clients g with
  | some vc =>
    if vc.connected then
      { s with voice_clients := delKey g s.voice_clients,
               disconnectCount := s.disconnectCount + 1 }
    else { s with voice_clients := delKey g s.voice_clients }
  | none => s

/-- Second stage of `leave_voice_channel`: delete the guild's queue entry
when present. -/
def dropQueueEntry (g : Nat) (s : PlayerState) : PlayerState :=
  if (s.queues g).isSome then { s with queues := delKey g s.queues } else s

/-- Third stage of `leave_voice_channel`: delete the guild's current-song
entry when present. -/
def dropCurrentEntry (g : Nat) (s : PlayerState) : PlayerState :=
  if (s.current_songs g).isSome then
    { s with current_songs := delKey g s.current_songs }
  else s

/-- `MusicPlayer.leave_voice_channel`: disconnect and drop the voice
client, then clear the queue and current-song entries.  Note: it does not
touch the filesystem. -/
def leave_voice_channel (g : Nat) (s : PlayerState) : PlayerState :=
  dropCurrentEntry g (dropQueueEntry g (dropVoiceClient g s))

/-- `MusicPlayer.play`: return if the guild has no voice client or is
already playing; otherwise take the queue (get-or-create), leave when it is
empty, else pop the head, record it as current and start playback. -/
def play (g : Nat) (s : PlayerState) : PlayerState :=
  match s.voice_clients g with
  | none => s
  | some vc =>
    if vc.playing then s
    else
      let p := get_queue g s
      match p.1 with
      | [] => leave_voice_channel g p.2
      | song :: rest =>
        { p.2 with
          queues := setKey g rest p.2.queues,
          current_songs := setKey g song p.2.current_songs,
          voice_clients := setKey g { vc with playing := true } p.2.voice_clients,
          startedOrder := p.2.startedOrder ++ [song] }

/-- `MusicPlayer._song_finished` (the `err` argument is only logged): try
to delete the current song's temp file, swallowing any failure, then call
`play` to advance the queue. -/
def song_finished (g : Nat) (err : Option String) (s : PlayerState) : PlayerState :=
  let s1 := match s.current_songs g with
    | some song => removeFile song.file_path s
    | none => s
  play g s1

/-- The transport delivering a finished event for guild `g`: the voice
client stops playing (so `is_playing()` is false inside the callback) and
the `after`-callback `_song_finished` runs.  The transport only fires the
callback for a playback it actually started, so the event is a no-op on a
non-playing client. -/
def songFinishes (g : Nat) (err : Option String) (s : PlayerState) : PlayerState :=
  match s.voice_clients g with
  | some vc =>
    if vc.playing then
      song_finished g err
        { s with voice_clients := setKey g { vc with playing := false } s.voice_clients,
                 finishedCount := s.finishedCount + 1 }
    else s
  | none => s

/-- What `show_queue` displays for a guild: the current song, if any, and
the pending queue in order. -/
structure QueueView where
  current : Option Song
  upNext : List Song
deriving Repr, DecidableEq

/-- The `show_queue` command handler's read of the player state: it calls
`get_queue` (which may create an entry) and reads `current_songs`. -/
def show_queue (g : Nat) (s : PlayerState) : QueueView × PlayerState :=
  let p := get_queue g s
  (⟨p.2.current_songs g, p.1⟩, p.2)

/-- Whether the guild currently has a connected voice client. -/
def connectedIn (g : Nat) (s : PlayerState) : Bool :=
  match s.voice_clients g with
  | some vc => vc.connected
  | none => false

/-! ## Basic state lemmas -/

/-- `removeFile` only touches the filesystem component. -/
theorem removeFile_fields (p : String) (s : PlayerState) :
    (removeFile p s).voice_clients = s.voice_clients ∧
    (removeFile p s).queues = s.queues ∧
    (removeFile p s).current_songs = s.current_songs ∧
    (removeFile p s).lockedFiles = s.lockedFiles ∧
    (removeFile p s).disconnectCount = s.disconnectCount ∧
    (removeFile p s).startedOrder = s.startedOrder ∧
    (removeFile p s).finishedCount = s.finishedCount := by
  unfold removeFile
  split <;> simp

/-- Field description of `dropVoiceClient`. -/
theorem dropVoiceClient_fields (g : Nat) (s : PlayerState) :
    (dropVoiceClient g s).voice_clients g = none ∧
    (dropVoiceClient g s).queues = s.queues ∧
    (dropVoiceClient g s).current_songs = s.current_songs ∧
    (dropVoiceClient g s).files = s.files ∧
    (dropVoiceClient g s).lockedFiles = s.lockedFiles ∧
    (dropVoiceClient g s).startedOrder = s.startedOrder ∧
    (dropVoiceClient g s).finishedCount = s.finishedCount ∧
    (dropVoiceClient g s).disconnectCount
      = s.disconnectCount + (if connectedIn g s then 1 else 0) := by
  unfold dropVoiceClient connectedIn
  cases h : s.voice_clients g with
  | none => simp [h]
  | some vc =>
    by_cases hc : vc.connected <;> simp [hc, delKey_self]

/-- Field description of `dropQueueEntry`. -/
theorem dropQueueEntry_fields (g : Nat) (s : PlayerState) :
    (dropQueueEntry g s).queues g = none ∧
    (dropQueueEntry g s).voice_clients = s.voice_clients ∧
    (dropQueueEntry g s).current_songs = s.current_songs ∧
    (dropQueueEntry g s).files = s.files ∧
    (dropQueueEntry g s).lockedFiles = s.lockedFiles ∧
    (dropQueueEntry g s).startedOrder = s.startedOrder ∧
    (dropQueueEntry g s).finishedCount = s.finishedCount ∧
    (dropQueueEntry g s).disconnectCount = s.disconnectCount := by
  unfold dropQueueEntry
  cases h : s.queues g with
  | none => simp [h]
  | some q => simp [h, delKey_self]

/-- Field description of `dropCurrentEntry`. -/
theorem dropCurrentEntry_fields (g : Nat) (s : PlayerState) :
    (dropCurrentEntry g s).current_songs g = none ∧
    (dropCurrentEntry g s).voice_clients = s.voice_clients ∧
    (dropCurrentEntry g s).queues = s.queues ∧
    (dropCurrentEntry g s).files = s.files ∧
    (dropCurrentEntry g s).lockedFiles = s.lockedFiles ∧
    (dropCurrentEntry g s).startedOrder = s.startedOrder ∧
    (dropCurrentEntry g s).finishedCount = s.finishedCount ∧
    (dropCurrentEntry g s).disconnectCount = s.disconnectCount := by
  unfold dropCurrentEntry
  cases h : s.current_songs g with
  | none => simp [h]
  | some c => simp [h, delKey_self]

/-- Field description of `leave_voice_channel`: the three entries for `g`
are gone, the filesystem and playback log are untouched, and `disconnect`
was called exactly once more iff the guild had a connected client. -/
theorem leave_fields (g : Nat) (s : PlayerState) :
    (leave_voice_channel g s).voice_clients g = none ∧
    (leave_voice_channel g s).queues g = none ∧
    (leave_voice_channel g s).current_songs g = none ∧
    (leave_voice_channel g s).files = s.files ∧
    (leave_voice_channel g s).lockedFiles = s.lockedFiles ∧
    (leave_voice_channel g s).startedOrder = s.startedOrder ∧
    (leave_voice_channel g s).finishedCount = s.finishedCount ∧
    (leave_voice_channel g s).disconnectCount
      = s.disconnectCount + (if connectedIn g s then 1 else 0) := by
  obtain ⟨v1, v2, v3, v4, v5, v6, v7, v8⟩ := dropVoiceClient_fields g s
  obtain ⟨q1, q2, q3, q4, q5, q6, q7, q8⟩ := dropQueueEntry_fields g (dropVoiceClient g s)
  obtain ⟨c1, c2, c3, c4, c5, c6, c7, c8⟩ :=
    dropCurrentEntry_fields g (dropQueueEntry g (dropVoiceClient g s))
  unfold leave_voice_channel
  refine ⟨?_, ?_, ?_, ?_, ?_, ?_, ?_, ?_⟩
  · rw [c2, q2, v1]
  · rw [c3, q1]
  · exact c1
  · rw [c4, q4, v4]
  · rw [c5, q5, v5]
  · rw [c6, q6, v6]
  · rw [c7, q7, v7]
  · rw [c8, q8, v8]

/-- A second `leave_voice_channel` on an already-left guild is literally a
no-op. -/
theorem leave_noop (g : Nat) (s : PlayerState)
    (h1 : s.voice_clients g = none) (h2 : s.queues g = none)
    (h3 : s.current_songs g = none) :
    leave_voice_channel g s = s := by
  unfold leave_voice_channel dropCurrentEntry dropQueueEntry dropVoiceClient
  simp [h1, h2, h3]

/-! ## `play` case lemmas -/

/-- `play` with no voice client entry returns the state unchanged. -/
theorem play_no_client (g : Nat) (s : PlayerState)
    (h : s.voice_clients g = none) : play g s = s := by
  unfold play
  rw [h]

/-- `play` while the voice client reports playing returns unchanged. -/
theorem play_already_playing (g : Nat) (s : PlayerState) (vc : VoiceClient)
    (hvc : s.voice_clients g = some vc) (hp : vc.playing = true) :
    play g s = s := by
  unfold play
  rw [hvc]
  simp [hp]

/-- `play` on an idle client with an empty queue entry leaves. -/
theorem play_empty_leaves (g : Nat) (s : PlayerState) (vc : VoiceClient)
    (hvc : s.voice_clients g = some vc) (hp : vc.playing = false)
    (hq : s.queues g = some []) :
    play g s = leave_voice_channel g s := by
  unfold play
  rw [hvc]
  simp [hp, get_queue, hq]

/-- `play` on an idle client with a non-empty queue pops the head, records
it as current and starts it. -/
theorem play_pop (g : Nat) (s : PlayerState) (vc : VoiceClient)
    (t : Song) (rest : List Song)
    (hvc : s.voice_clients g = some vc) (hp : vc.playing = false)
    (hq : s.queues g = some (t :: rest)) :
    play g s = { s with
      queues := setKey g rest s.queues,
      current_songs := setKey g t s.current_songs,
      voice_clients := setKey g { vc with playing := true } s.voice_clients,
      startedOrder := s.startedOrder ++ [t] } := by
  unfold play
  rw [hvc]
  simp [hp, get_queue, hq]

/-! ## Claim C10 -/

/-- Claim C10: for a guild with no registered voice client, `play` returns
without raising (it is a total function here), starts no playback, and
leaves the whole state — in particular the queue and current-song maps —
unchanged. -/
theorem C10_play_without_voice_client (g : Nat) (s : PlayerState)
    (h : s.voice_clients g = none) :
    play g s = s ∧
    (play g s).startedOrder = s.startedOrder ∧
    (play g s).queues = s.queues ∧
    (play g s).current_songs = s.current_songs := by
  have := play_no_client g s h
  exact ⟨this, by rw [this], by rw [this], by rw [this]⟩

/-- A player state with no guild registered anywhere. -/
def emptyPlayer : PlayerState :=
  { voice_clients := fun _ => none, queues := fun _ => none,
    current_songs := fun _ => none, files := [], lockedFiles := [],
    disconnectCount := 0, startedOrder := [], finishedCount := 0 }

theorem C10_play_witness :
    play 1 emptyPlayer = emptyPlayer ∧
    (play 1 emptyPlayer).startedOrder = emptyPlayer.startedOrder ∧
    (play 1 emptyPlayer).queues = emptyPlayer.queues ∧
    (play 1 emptyPlayer).current_songs = emptyPlayer.current_songs :=
  C10_play_without_voice_client 1 emptyPlayer rfl

/-! ## Claim C4 -/

/-- A song whose temp file exists on disk. -/
def sampleSong : Song := ⟨"my track", "gen1", "/tmp/a.mp3"⟩

/-- Guild 1 connected and playing `sampleSong`, empty pending queue, the
song's temp file on disk. -/
def playingState : PlayerState :=
  { voice_clients := setKey 1 ⟨true, true⟩ (fun _ => none),
    queues := setKey 1 [] (fun _ => none),
    current_songs := setKey 1 sampleSong (fun _ => none),
    files := ["/tmp/a.mp3"], lockedFiles := [],
    disconnectCount := 0, startedOrder := [sampleSong], finishedCount := 0 }

/-- Claim C4 counterexample: with a track actively playing whose temp file
exists on disk, `leave_voice_channel` leaves the filesystem untouched — the
current track's temporary file is not deleted (no `os.remove` anywhere on
the leave path). -/
theorem C4_leave_counterexample :
    playingState.current_songs 1 = some sampleSong ∧
    sampleSong.file_path ∈ playingState.files ∧
    (leave_voice_channel 1 playingState).files = playingState.files ∧
    sampleSong.file_path ∈ (leave_voice_channel 1 playingState).files := by
  refine ⟨rfl, ?_, (leave_fields 1 playingState).2.2.2.1, ?_⟩
  · simp [playingState, sampleSong]
  · rw [(leave_fields 1 playingState).2.2.2.1]
    simp [playingState, sampleSong]

/-- Claim C4 as amended: in every state, `leave_voice_channel` disconnects
the transport iff it was connected, clears the queue entry without playing
its tracks, removes the current-song entry, and is idempotent (a second
consecutive call is a no-op raising no error); however it does not delete
the current track's temporary file — the filesystem is left untouched. -/
theorem C4_leave_amended (g : Nat) (s : PlayerState) :
    (leave_voice_channel g s).voice_clients g = none ∧
    (leave_voice_channel g s).queues g = none ∧
    (leave_voice_channel g s).current_songs g = none ∧
    (leave_voice_channel g s).files = s.files ∧
    (leave_voice_channel g s).startedOrder = s.startedOrder ∧
    (leave_voice_channel g s).disconnectCount
      = s.disconnectCount + (if connectedIn g s then 1 else 0) ∧
    leave_voice_channel g (leave_voice_channel g s) = leave_voice_channel g s := by
  obtain ⟨h1, h2, h3, h4, h5, h6, h7, h8⟩ := leave_fields g s
  exact ⟨h1, h2, h3, h4, h6, h8, leave_noop g _ h1 h2 h3⟩

/-! ## Claim C9 -/

/-- Claim C9 counterexample: displaying the queue for a guild with no
session is not a non-creating lookup — it inserts a fresh empty entry for
that guild into the queue map (`get_queue` is get-or-create). -/
theorem C9_show_queue_counterexample :
    emptyPlayer.queues 1 = none ∧
    ((show_queue 1 emptyPlayer).2).queues 1 = some [] :=
  ⟨rfl, rfl⟩

/-- Claim C9 as amended: the queue display reads the current song and the
pending queue without touching the voice-client or current-song maps, the
filesystem, or the playback log, and leaves every other guild's queue entry
unchanged; but for the displayed guild it stores `some []` when the guild
had no entry (a get-or-create lookup, not a non-creating one). -/
theorem C9_show_queue_amended (g : Nat) (s : PlayerState) :
    (show_queue g s).1 = ⟨s.current_songs g, (s.queues g).getD []⟩ ∧
    (∀ k, ((show_queue g s).2).queues k
        = if k = g then some ((s.queues g).getD []) else s.queues k) ∧
    ((show_queue g s).2).voice_clients = s.voice_clients ∧
    ((show_queue g s).2).current_songs = s.current_songs ∧
    ((show_queue g s).2).files = s.files ∧
    ((show_queue g s).2).disconnectCount = s.disconnectCount ∧
    ((show_queue g s).2).startedOrder = s.startedOrder ∧
    ((show_queue g s).2).finishedCount = s.finishedCount := by
  unfold show_queue get_queue
  cases hq : s.queues g with
  | none =>
    refine ⟨rfl, ?_, rfl, rfl, rfl, rfl, rfl, rfl⟩
    intro k
    by_cases hk : k = g
    · subst hk; simp [setKey]
    · simp [setKey, hk]
  | some q =>
    refine ⟨rfl, ?_, rfl, rfl, rfl, rfl, rfl, rfl⟩
    intro k
    by_cases hk : k = g
    · subst hk; simp [hq]
    · simp [hk]

/-! ## Claim C5 -/

/-- Claim C5: when the playing track finishes and the guild's pending
queue is empty, the session tears down: the transport's disconnect is
invoked exactly once, and the three registry entries for the guild are
removed, so subsequent lookups for that guild come back empty. -/
theorem C5_queue_exhausted_teardown (g : Nat) (err : Option String)
    (s : PlayerState)
    (hvc : s.voice_clients g = some ⟨true, true⟩)
    (hq : s.queues g = some []) :
    (songFinishes g err s).disconnectCount = s.disconnectCount + 1 ∧
    (songFinishes g err s).voice_clients g = none ∧
    (songFinishes g err s).queues g = none ∧
    (songFinishes g err s).current_songs g = none := by
  have hsf : songFinishes g err s
      = song_finished g err
          { s with
            voice_clients := setKey g ⟨true, false⟩ s.voice_clients,
            finishedCount := s.finishedCount + 1 } := by
    unfold songFinishes
    rw [hvc]
    rfl
  set s2 : PlayerState :=
    { s with
      voice_clients := setKey g ⟨true, false⟩ s.voice_clients,
      finishedCount := s.finishedCount + 1 } with hs2
  have hs2vc : s2.voice_clients g = some ⟨true, false⟩ := setKey_self g _ _
  have hs2q : s2.queues g = some [] := hq
  have key : ∀ s3 : PlayerState,
      s3.voice_clients g = some ⟨true, false⟩ →
      s3.queues g = some [] →
      s3.disconnectCount = s.disconnectCount →
      (play g s3).disconnectCount = s.disconnectCount + 1 ∧
      (play g s3).voice_clients g = none ∧
      (play g s3).queues g = none ∧
      (play g s3).current_songs g = none := by
    intro s3 h3vc h3q h3d
    rw [play_empty_leaves g s3 ⟨true, false⟩ h3vc rfl h3q]
    obtain ⟨l1, l2, l3, _, _, _, _, l8⟩ := leave_fields g s3
    refine ⟨?_, l1, l2, l3⟩
    have hcn : connectedIn g s3 = true := by
      unfold connectedIn
      rw [h3vc]
    rw [l8, h3d, hcn]
    simp
  rw [hsf]
  unfold song_finished
  cases hcur : s2.current_songs g with
  | none =>
    exact key s2 hs2vc hs2q rfl
  | some song =>
    obtain ⟨r1, r2, r3, _, r5, _, _⟩ := removeFile_fields song.file_path s2
    exact key (removeFile song.file_path s2)
      (by rw [r1]; exact hs2vc) (by rw [r2]; exact hs2q) (by rw [r5])

theorem C5_teardown_witness :
    (songFinishes 1 none playingState).disconnectCount
      = playingState.disconnectCount + 1 ∧
    (songFinishes 1 none playingState).voice_clients 1 = none ∧
    (songFinishes 1 none playingState).queues 1 = none ∧
    (songFinishes 1 none playingState).current_songs 1 = none :=
  C5_queue_exhausted_teardown 1 none playingState rfl rfl

/-! ## Claim C8 -/

/-- The control portion of a `PlayerState`: everything except the
filesystem.  Queue advancement is a function of this portion alone. -/
structure Ctrl where
  voice_clients : Nat → Option VoiceClient
  queues : Nat → Option (List Song)
  current_songs : Nat → Option Song
  disconnectCount : Nat
  startedOrder : List Song
  finishedCount : Nat

/-- Project a state to its control portion. -/
def ctrl (s : PlayerState) : Ctrl :=
  ⟨s.voice_clients, s.queues, s.current_songs, s.disconnectCount,
   s.startedOrder, s.finishedCount⟩

/-- `dropVoiceClient` mirrored on the control portion. -/
def dropVoiceClientC (g : Nat) (c : Ctrl) : Ctrl :=
  match c.voice_clients g with
  | some vc =>
    if vc.connected then
      { c with voice_clients := delKey g c.voice_clients,
               disconnectCount := c.disconnectCount + 1 }
    else { c with voice_clients := delKey g c.voice_clients }
  | none => c

/-- `dropQueueEntry` mirrored on the control portion. -/
def dropQueueEntryC (g : Nat) (c : Ctrl) : Ctrl :=
  if (c.queues g).isSome then { c with queues := delKey g c.queues } else c

/-- `dropCurrentEntry` mirrored on the control portion. -/
def dropCurrentEntryC (g : Nat) (c : Ctrl) : Ctrl :=
  if (c.current_songs g).isSome then
    { c with current_songs := delKey g c.current_songs }
  else c

/-- `leave_voice_channel` mirrored on the control portion. -/
def leaveC (g : Nat) (c : Ctrl) : Ctrl :=
  dropCurrentEntryC g (dropQueueEntryC g (dropVoiceClientC g c))

/-- `play` mirrored on the control portion. -/
def playC (g : Nat) (c : Ctrl) : Ctrl :=
  match c.voice_clients g with
  | none => c
  | some vc =>
    if vc.playing then c
    else
      match c.queues g with
      | none => leaveC g { c with queues := setKey g [] c.queues }
      | some [] => leaveC g c
      | some (song :: rest) =>
        { c with
          queues := setKey g rest c.queues,
          current_songs := setKey g song c.current_songs,
          voice_clients := setKey g { vc with playing := true } c.voice_clients,
          startedOrder := c.startedOrder ++ [song] }

theorem ctrl_dropVoiceClient (g : Nat) (s : PlayerState) :
    ctrl (dropVoiceClient g s) = dropVoiceClientC g (ctrl s) := by
  unfold dropVoiceClient dropVoiceClientC ctrl
  cases h : s.voice_clients g with
  | none => simp [h]
  | some vc => by_cases hc : vc.connected <;> simp [h, hc]

theorem ctrl_dropQueueEntry (g : Nat) (s : PlayerState) :
    ctrl (dropQueueEntry g s) = dropQueueEntryC g (ctrl s) := by
  unfold dropQueueEntry dropQueueEntryC ctrl
  by_cases h : (s.queues g).isSome <;> simp [h]

theorem ctrl_dropCurrentEntry (g : Nat) (s : PlayerState) :
    ctrl (dropCurrentEntry g s) = dropCurrentEntryC g (ctrl s) := by
  unfold dropCurrentEntry dropCurrentEntryC ctrl
  by_cases h : (s.current_songs g).isSome <;> simp [h]

theorem ctrl_leave (g : Nat) (s : PlayerState) :
    ctrl (leave_voice_channel g s) = leaveC g (ctrl s) := by
  unfold leave_voice_channel leaveC
  rw [ctrl_dropCurrentEntry, ctrl_dropQueueEntry, ctrl_dropVoiceClient]

/-- `play` on an idle client with no queue entry first stores an empty
queue (via `get_queue`), then leaves. -/
theorem play_no_queue_entry (g : Nat) (s : PlayerState) (vc : VoiceClient)
    (hvc : s.voice_clients g = some vc) (hp : vc.playing = false)
    (hq : s.queues g = none) :
    play g s = leave_voice_channel g { s with queues := setKey g [] s.queues } := by
  unfold play
  rw [hvc]
  simp [hp, get_queue, hq]

theorem ctrl_play (g : Nat) (s : PlayerState) :
    ctrl (play g s) = playC g (ctrl s) := by
  cases hvc : s.voice_clients g with
  | none =>
    rw [play_no_client g s hvc]
    unfold playC
    simp [ctrl, hvc]
  | some vc =>
    by_cases hp : vc.playing = true
    · rw [play_already_playing g s vc hvc hp]
      unfold playC
      simp [ctrl, hvc, hp]
    · have hp' : vc.playing = false := by simpa using hp
      cases hq : s.queues g with
      | none =>
        rw [play_no_queue_entry g s vc hvc hp' hq, ctrl_leave]
        unfold playC
        simp [ctrl, hvc, hp', hq]
      | some q =>
        cases q with
        | nil =>
          rw [play_empty_leaves g s vc hvc hp' hq, ctrl_leave]
          unfold playC
          simp [ctrl, hvc, hp', hq]
        | cons t rest =>
          rw [play_pop g s vc t rest hvc hp' hq]
          unfold playC
          simp [ctrl, hvc, hp', hq]

theorem ctrl_removeFile (p : String) (s : PlayerState) :
    ctrl (removeFile p s) = ctrl s := by
  unfold removeFile ctrl
  split <;> rfl

/-- Claim C8: a failure while deleting the finished track's temporary file
is swallowed (the embedded `_song_finished` is total: the caught exception
never propagates), and the finished-callback advances the queue exactly as
after a successful deletion — the control portion of the resulting state
(voice clients, queues, current songs, playback starts, disconnects) is
independent of the filesystem contents and of which deletions fail. -/
theorem C8_cleanup_failure_swallowed (g : Nat) (err : Option String)
    (s : PlayerState) (fs ls fs' ls' : List String) :
    ctrl (song_finished g err { s with files := fs, lockedFiles := ls }) =
    ctrl (song_finished g err { s with files := fs', lockedFiles := ls' }) := by
  unfold song_finished
  cases hcur : s.current_songs g with
  | none =>
    show ctrl (play g _) = ctrl (play g _)
    rw [ctrl_play, ctrl_play]
    rfl
  | some song =>
    show ctrl (play g _) = ctrl (play g _)
    rw [ctrl_play, ctrl_play, ctrl_removeFile, ctrl_removeFile]
    rfl

/-! ## Claim C1: the enqueue/finish state machine -/

/-- Events driving one guild's session: an `enqueue` is the front end's
`add_to_queue` followed by `play` (as in `generate_music` /
`play_existing`); `finish` is the transport reporting the current track
finished, which fires the `after`-callback `_song_finished`. -/
inductive Event where
  | enqueue (song : Song)
  | finish
deriving Repr, DecidableEq

/-- Apply one event to the player state. -/
def step (g : Nat) (s : PlayerState) : Event → PlayerState
  | .enqueue song => play g (add_to_queue g song s)
  | .finish => songFinishes g none s

/-- Run a sequence of events. -/
def run (g : Nat) (s : PlayerState) : List Event → PlayerState
  | [] => s
  | e :: es => run g (step g s e) es

/-- The songs enqueued by a sequence of events, in order. -/
def enqueuedSongs : List Event → List Song
  | [] => []
  | .enqueue t :: es => t :: enqueuedSongs es
  | .finish :: es => enqueuedSongs es

/-- The otherwise-idle session: guild `g` has a connected, non-playing
voice client and nothing queued, current, or started. -/
def initState (g : Nat) : PlayerState :=
  { voice_clients := setKey g ⟨true, false⟩ (fun _ => none),
    queues := fun _ => none,
    current_songs := fun _ => none,
    files := [], lockedFiles := [],
    disconnectCount := 0, startedOrder := [], finishedCount := 0 }

/-- Overwriting a key twice keeps only the second write. -/
theorem setKey_setKey {α : Type} (g : Nat) (v w : α) (m : Nat → Option α) :
    setKey g v (setKey g w m) = setKey g v m := by
  funext k
  unfold setKey
  by_cases h : k = g <;> simp [h]

/-- `add_to_queue` on an existing entry appends to its tail. -/
theorem add_to_queue_some (g : Nat) (t : Song) (s : PlayerState) (q : List Song)
    (h : s.queues g = some q) :
    add_to_queue g t s = { s with queues := setKey g (q ++ [t]) s.queues } := by
  unfold add_to_queue get_queue
  rw [h]

/-- `add_to_queue` on a missing entry creates it with the one song. -/
theorem add_to_queue_none (g : Nat) (t : Song) (s : PlayerState)
    (h : s.queues g = none) :
    add_to_queue g t s = { s with queues := setKey g [t] s.queues } := by
  unfold add_to_queue get_queue
  rw [h]
  simp [setKey_setKey]

/-- A finished event on a playing client: the transport clears the playing
flag, then `_song_finished` runs. -/
theorem songFinishes_playing (g : Nat) (err : Option String)
    (s : PlayerState) (vc : VoiceClient)
    (hvc : s.voice_clients g = some vc) (hp : vc.playing = true) :
    songFinishes g err s
      = song_finished g err
          { s with
            voice_clients := setKey g { vc with playing := false } s.voice_clients,
            finishedCount := s.finishedCount + 1 } := by
  unfold songFinishes
  rw [hvc]
  simp [hp]

/-- A finished event is a no-op on a non-playing client. -/
theorem songFinishes_not_playing (g : Nat) (err : Option String)
    (s : PlayerState) (vc : VoiceClient)
    (hvc : s.voice_clients g = some vc) (hp : vc.playing = false) :
    songFinishes g err s = s := by
  unfold songFinishes
  rw [hvc]
  simp [hp]

/-- A finished event is a no-op with no voice client. -/
theorem songFinishes_no_client (g : Nat) (err : Option String)
    (s : PlayerState) (h : s.voice_clients g = none) :
    songFinishes g err s = s := by
  unfold songFinishes
  rw [h]

/-- `_song_finished` with a current song deletes its file then advances. -/
theorem song_finished_some (g : Nat) (err : Option String)
    (s : PlayerState) (c : Song) (h : s.current_songs g = some c) :
    song_finished g err s = play g (removeFile c.file_path s) := by
  unfold song_finished
  rw [h]

/-- `_song_finished` with no current song just advances. -/
theorem song_finished_none (g : Nat) (err : Option String)
    (s : PlayerState) (h : s.current_songs g = none) :
    song_finished g err s = play g s := by
  unfold song_finished
  rw [h]

/-- The session invariant for guild `g` after some event history whose
enqueued songs are `E`: some count `k` of the enqueued songs have been
started, in order; the pending queue holds exactly the rest in order; and
the session is in one of three shapes — never-started idle, playing the
`k`-th started song, or torn down after one disconnect. -/
def SessionInv (g : Nat) (E : List Song) (s : PlayerState) : Prop :=
  ∃ k, k ≤ E.length ∧ s.startedOrder = E.take k ∧
    ((s.voice_clients g = some ⟨true, false⟩ ∧ k = 0 ∧ E = [] ∧
        s.queues g = none ∧ s.current_songs g = none ∧
        s.finishedCount = 0 ∧ s.disconnectCount = 0) ∨
     (∃ j, k = j + 1 ∧ s.voice_clients g = some ⟨true, true⟩ ∧
        s.queues g = some (E.drop k) ∧ s.current_songs g = E[j]? ∧
        s.finishedCount = j ∧ s.disconnectCount = 0) ∨
     (s.voice_clients g = none ∧ s.current_songs g = none ∧
        (s.queues g = some (E.drop k) ∨ (s.queues g = none ∧ k = E.length)) ∧
        s.finishedCount = k ∧ s.disconnectCount = 1))

/-- The invariant holds initially (no songs enqueued yet). -/
theorem sessionInv_init (g : Nat) : SessionInv g [] (initState g) := by
  refine ⟨0, by simp, rfl, Or.inl ⟨?_, rfl, rfl, rfl, rfl, rfl, rfl⟩⟩
  simp [initState, setKey]

/-- Advancing after a finished callback (the `play` call at the end of
`_song_finished`, on the cleaned-up state) preserves the invariant:
either the next song starts or the session tears down. -/
theorem play_after_finish (g : Nat) (E : List Song) (k j : Nat)
    (s3 : PlayerState)
    (hk : k ≤ E.length) (hkj : k = j + 1)
    (hvc : s3.voice_clients g = some ⟨true, false⟩)
    (hq : s3.queues g = some (E.drop k))
    (hstart : s3.startedOrder = E.take k)
    (hfin : s3.finishedCount = k)
    (hdis : s3.disconnectCount = 0) :
    SessionInv g E (play g s3) := by
  cases hdk : E.drop k with
  | nil =>
    have hkE : k = E.length := by
      have hlen := congrArg List.length hdk
      simp at hlen
      omega
    rw [play_empty_leaves g s3 ⟨true, false⟩ hvc rfl (by rw [hq, hdk])]
    obtain ⟨l1, l2, l3, _, _, l6, l7, l8⟩ := leave_fields g s3
    refine ⟨k, hk, ?_, Or.inr (Or.inr ⟨l1, l3, Or.inr ⟨l2, hkE⟩, ?_, ?_⟩)⟩
    · rw [l6, hstart]
    · rw [l7, hfin]
    · have hcn : connectedIn g s3 = true := by
        unfold connectedIn
        rw [hvc]
      rw [l8, hdis, hcn]
      simp
  | cons t rest =>
    have hklen : k < E.length := by
      have hlen := congrArg List.length hdk
      simp [List.length_drop] at hlen
      omega
    have hget : E[k]? = some t := by
      have h0 : (E.drop k)[0]? = E[k + 0]? := List.getElem?_drop E k 0
      rw [hdk] at h0
      simpa using h0.symm
    have hdrop1 : E.drop (k + 1) = rest := by
      have h1 : List.drop 1 (List.drop k E) = List.drop (k + 1) E :=
        List.drop_drop 1 k E
      rw [hdk] at h1
      simpa using h1.symm
    rw [play_pop g s3 ⟨true, false⟩ t rest hvc rfl (by rw [hq, hdk])]
    refine ⟨k + 1, by omega, ?_, Or.inr (Or.inl ⟨k, rfl, ?_, ?_, ?_, ?_, ?_⟩)⟩
    · show s3.startedOrder ++ [t] = E.take (k + 1)
      rw [hstart, List.take_succ, hget]
      rfl
    · exact setKey_self g _ _
    · show setKey g rest s3.queues g = some (E.drop (k + 1))
      rw [setKey_self, hdrop1]
    · show setKey g t s3.current_songs g = E[k]?
      rw [setKey_self, hget]
    · exact hfin
    · exact hdis

/-- `_song_finished` on a playing-shaped state preserves the invariant:
the current song's file is (attempted to be) deleted and the queue
advances. -/
theorem song_finished_inv (g : Nat) (E : List Song) (k j : Nat)
    (s2 : PlayerState)
    (hk : k ≤ E.length) (hkj : k = j + 1) (hjlen : j < E.length)
    (hvc : s2.voice_clients g = some ⟨true, false⟩)
    (hq : s2.queues g = some (E.drop k))
    (hcur : s2.current_songs g = E[j]?)
    (hstart : s2.startedOrder = E.take k)
    (hfin : s2.finishedCount = k)
    (hdis : s2.disconnectCount = 0) :
    SessionInv g E (song_finished g none s2) := by
  have hcur2 : s2.current_songs g = some E[j] := by
    rw [hcur]
    exact List.getElem?_eq_getElem hjlen
  rw [song_finished_some g none s2 E[j] hcur2]
  obtain ⟨r1, r2, r3, _, r5, r6, r7⟩ := removeFile_fields (E[j]).file_path s2
  exact play_after_finish g E k j _ hk hkj (by rw [r1]; exact hvc)
    (by rw [r2]; exact hq) (by rw [r6]; exact hstart)
    (by rw [r7]; exact hfin) (by rw [r5]; exact hdis)

/-- An `enqueue` event preserves the invariant, extending the enqueued-song
history by the new song. -/
theorem sessionInv_enqueue (g : Nat) (E : List Song) (s : PlayerState)
    (t : Song) (h : SessionInv g E s) :
    SessionInv g (E ++ [t]) (step g s (.enqueue t)) := by
  show SessionInv g (E ++ [t]) (play g (add_to_queue g t s))
  obtain ⟨k, hk, hstart, hcase⟩ := h
  rcases hcase with ⟨hvc, hk0, hE, hqn, hcur, hfin, hdis⟩ |
    ⟨j, hkj, hvc, hq, hcur, hfin, hdis⟩ | ⟨hvc, hcur, hqd, hfin, hdis⟩
  · -- idle: nothing enqueued yet; the new song starts at once
    subst hE
    subst hk0
    have hstart' : s.startedOrder = [] := by simpa using hstart
    rw [add_to_queue_none g t s hqn]
    have hvcA : ({ s with queues := setKey g [t] s.queues } :
        PlayerState).voice_clients g = some ⟨true, false⟩ := hvc
    have hqA : ({ s with queues := setKey g [t] s.queues } :
        PlayerState).queues g = some (t :: []) := setKey_self g _ _
    rw [play_pop g _ ⟨true, false⟩ t [] hvcA rfl hqA]
    refine ⟨1, by simp, ?_, Or.inr (Or.inl ⟨0, rfl, ?_, ?_, ?_, ?_, ?_⟩)⟩
    · show s.startedOrder ++ [t] = ([] ++ [t]).take 1
      rw [hstart']
      rfl
    · exact setKey_self g _ _
    · show setKey g [] (setKey g [t] s.queues) g = some (([] ++ [t]).drop 1)
      rw [setKey_self]
      rfl
    · show setKey g t s.current_songs g = ([] ++ [t])[0]?
      rw [setKey_self]
      rfl
    · exact hfin
    · exact hdis
  · -- playing: the song is only appended to the tail
    have hjlen : j < E.length := by omega
    rw [add_to_queue_some g t s _ hq]
    have hvcA : ({ s with queues := setKey g (E.drop k ++ [t]) s.queues } :
        PlayerState).voice_clients g = some ⟨true, true⟩ := hvc
    rw [play_already_playing g _ ⟨true, true⟩ hvcA rfl]
    refine ⟨k, by simp; omega, ?_,
      Or.inr (Or.inl ⟨j, hkj, hvcA, ?_, ?_, hfin, hdis⟩)⟩
    · show s.startedOrder = (E ++ [t]).take k
      rw [hstart, List.take_append_of_le_length hk]
    · show setKey g (E.drop k ++ [t]) s.queues g = some ((E ++ [t]).drop k)
      rw [setKey_self, List.drop_append_of_le_length hk]
    · show s.current_songs g = (E ++ [t])[j]?
      rw [hcur, List.getElem?_append_left hjlen]
  · -- closed: the song is appended (or the entry re-created) but nothing plays
    rcases hqd with hq | ⟨hqn, hkE⟩
    · rw [add_to_queue_some g t s _ hq]
      have hvcA : ({ s with queues := setKey g (E.drop k ++ [t]) s.queues } :
          PlayerState).voice_clients g = none := hvc
      rw [play_no_client g _ hvcA]
      refine ⟨k, by simp; omega, ?_,
        Or.inr (Or.inr ⟨hvcA, hcur, Or.inl ?_, hfin, hdis⟩)⟩
      · show s.startedOrder = (E ++ [t]).take k
        rw [hstart, List.take_append_of_le_length hk]
      · show setKey g (E.drop k ++ [t]) s.queues g = some ((E ++ [t]).drop k)
        rw [setKey_self, List.drop_append_of_le_length hk]
    · rw [add_to_queue_none g t s hqn]
      have hvcA : ({ s with queues := setKey g [t] s.queues } :
          PlayerState).voice_clients g = none := hvc
      rw [play_no_client g _ hvcA]
      refine ⟨k, by simp; omega, ?_,
        Or.inr (Or.inr ⟨hvcA, hcur, Or.inl ?_, hfin, hdis⟩)⟩
      · show s.startedOrder = (E ++ [t]).take k
        rw [hstart, List.take_append_of_le_length hk]
      · show setKey g [t] s.queues g = some ((E ++ [t]).drop k)
        rw [setKey_self, hkE, List.drop_append_of_le_length (Nat.le_refl E.length)]
        simp

/-- A `finish` event preserves the invariant. -/
theorem sessionInv_finish (g : Nat) (E : List Song) (s : PlayerState)
    (h : SessionInv g E s) : SessionInv g E (step g s .finish) := by
  show SessionInv g E (songFinishes g none s)
  obtain ⟨k, hk, hstart, hcase⟩ := h
  rcases hcase with ⟨hvc, hk0, hE, hqn, hcur, hfin, hdis⟩ |
    ⟨j, hkj, hvc, hq, hcur, hfin, hdis⟩ | ⟨hvc, hcur, hqd, hfin, hdis⟩
  · rw [songFinishes_not_playing g none s ⟨true, false⟩ hvc rfl]
    exact ⟨k, hk, hstart, Or.inl ⟨hvc, hk0, hE, hqn, hcur, hfin, hdis⟩⟩
  · rw [songFinishes_playing g none s ⟨true, true⟩ hvc rfl]
    have hjlen : j < E.length := by omega
    apply song_finished_inv g E k j _ hk hkj hjlen
    · exact setKey_self g _ _
    · exact hq
    · exact hcur
    · exact hstart
    · show s.finishedCount + 1 = k
      omega
    · exact hdis
  · rw [songFinishes_no_client g none s hvc]
    exact ⟨k, hk, hstart, Or.inr (Or.inr ⟨hvc, hcur, hqd, hfin, hdis⟩)⟩

/-- The invariant is preserved along any run of events. -/
theorem sessionInv_run (g : Nat) (es : List Event) :
    ∀ (E : List Song) (s : PlayerState), SessionInv g E s →
      SessionInv g (E ++ enqueuedSongs es) (run g s es) := by
  induction es with
  | nil =>
    intro E s h
    simpa [run, enqueuedSongs] using h
  | cons e es ih =>
    intro E s h
    cases e with
    | enqueue t =>
      have h2 := ih (E ++ [t]) _ (sessionInv_enqueue g E s t h)
      show SessionInv g (E ++ enqueuedSongs (.enqueue t :: es)) (run g (step g s (.enqueue t)) es)
      simpa [enqueuedSongs, List.append_assoc] using h2
    | finish =>
      have h2 := ih E _ (sessionInv_finish g E s h)
      show SessionInv g (E ++ enqueuedSongs (.finish :: es)) (run g (step g s .finish) es)
      simpa [enqueuedSongs] using h2

/-- Claim C1: starting from an otherwise-idle session, any sequence of
enqueue operations (interleaved with playback-finished events) keeps FIFO
order — the songs handed to the transport followed by the pending queue
are exactly the enqueued songs in enqueue order, so enqueue appends to the
tail and starting playback removes the head — and at most one track is
active at any time: the number of tracks started but not yet finished
never exceeds one. -/
theorem C1_enqueue_fifo_single_active (g : Nat) (es : List Event) :
    (run g (initState g) es).startedOrder
        ++ ((run g (initState g) es).queues g).getD []
      = enqueuedSongs es ∧
    (run g (initState g) es).startedOrder.length
      ≤ (run g (initState g) es).finishedCount + 1 := by
  have h := sessionInv_run g es [] (initState g) (sessionInv_init g)
  rw [List.nil_append] at h
  obtain ⟨k, hk, hstart, hcase⟩ := h
  constructor
  · rcases hcase with ⟨_, hk0, hE, hqn, _, _, _⟩ |
      ⟨j, hkj, _, hq, _, _, _⟩ | ⟨_, _, hqd, _, _⟩
    · rw [hstart, hqn, hE]
      simp
    · rw [hstart, hq]
      simp
    · rcases hqd with hq | ⟨hqn, hkE⟩
      · rw [hstart, hq]
        simp
      · rw [hstart, hqn]
        simp
        rw [← List.take_append_drop k (enqueuedSongs es), hkE]
        simp
  · have hlen : (run g (initState g) es).startedOrder.length = k := by
      rw [hstart, List.length_take]
      omega
    rw [hlen]
    rcases hcase with ⟨_, hk0, _, _, _, hfin, _⟩ |
      ⟨j, hkj, _, _, _, hfin, _⟩ | ⟨_, _, _, hfin, _⟩ <;> omega
